import Mathlib

/-
Shallow embedding of the calculation engine of the Real Estate Investment
Analyzer (src/app.py).  Python floats are modelled as rationals; the
Python sentinel float infinity returned by the break-even computation is
modelled by an explicit constructor of an inductive type; the Python
ZeroDivisionError raised by the risk analyzer on zero rent is modelled by
Except.error.  Number formatting inside the generated description strings
(Python f-string formatting of floats) is abstracted by Rat.toString; the
wording around the numbers follows the source.
-/

set_option autoImplicit false
set_option linter.unusedVariables false

namespace ReApp

/-- Impact triple attached to each market-condition label (src/app.py lines 108-113). -/
structure MarketImpact where
  vacancy_impact : ℚ
  appreciation_impact : ℚ
  price_trend : ℚ
  deriving DecidableEq, Repr

/-- The four market-condition labels, the closed vocabulary of the MARKET_CONDITIONS table. -/
inductive MarketCondition where
  | strongGrowth
  | stable
  | declining
  | volatile
  deriving DecidableEq, Repr

/-- The label string of a market condition, as used as dictionary key in src/app.py. -/
def MarketCondition.label : MarketCondition → String
  | .strongGrowth => "Strong Growth"
  | .stable => "Stable"
  | .declining => "Declining"
  | .volatile => "Volatile"

/-- MARKET_CONDITIONS table (src/app.py lines 108-113). -/
def MARKET_CONDITIONS : MarketCondition → MarketImpact
  | .strongGrowth => { vacancy_impact := -2, appreciation_impact := 2, price_trend := 5 }
  | .stable => { vacancy_impact := 0, appreciation_impact := 0, price_trend := 2 }
  | .declining => { vacancy_impact := 3, appreciation_impact := -2, price_trend := -3 }
  | .volatile => { vacancy_impact := 2, appreciation_impact := 1, price_trend := 0 }

/-- Value of the break_even_months field.  `months q` models a finite Python
float; `posInf` models the Python value float infinity produced at line 152
of src/app.py when monthly cash flow is not positive. -/
inductive BreakEven where
  | months (q : ℚ)
  | posInf
  deriving DecidableEq, Repr

/-- Whether a BreakEven value is the numeric IEEE positive infinity of the
Python float type.  `posInf` models exactly that float value, so this holds
on `posInf` and on no finite value. -/
def BreakEven.isNumericInfinity : BreakEven → Bool
  | .months _ => false
  | .posInf => true

/-- Result record of calculate_metrics (src/app.py lines 174-190). -/
structure MetricsResult where
  monthly_cash_flow : ℚ
  annual_cash_flow : ℚ
  roi : ℚ
  cap_rate : ℚ
  cash_on_cash : ℚ
  mortgage_payment : ℚ
  break_even_months : BreakEven
  tax_savings : ℚ
  after_tax_cash_flow : ℚ
  future_value_5yr : ℚ
  future_value_10yr : ℚ
  future_value_20yr : ℚ
  total_equity_5yr : ℚ
  total_equity_10yr : ℚ
  initial_investment : ℚ
  deriving DecidableEq, Repr

/-- The mortgage-payment computation inlined in calculate_metrics
(src/app.py lines 123-133): the monthly interest rate is guarded by
`loan_rate > 0`, the number of payments by `loan_term > 0`, and the
amortization formula applies only when loan amount, rate and payment count
are all positive. -/
def metricsMortgagePayment (price down_payment loan_rate : ℚ) (loan_term : ℤ) : ℚ :=
  let loan_amount := price - down_payment
  let monthly_interest_rate := if loan_rate > 0 then loan_rate / 12 / 100 else 0
  let num_payments : ℤ := if loan_term > 0 then loan_term * 12 else 0
  if loan_amount > 0 ∧ monthly_interest_rate > 0 ∧ num_payments > 0 then
    (loan_amount * monthly_interest_rate * (1 + monthly_interest_rate) ^ num_payments.toNat) /
      ((1 + monthly_interest_rate) ^ num_payments.toNat - 1)
  else 0

/-- The mortgage-payment computation inlined in calculate_cash_flow_projection
(src/app.py lines 197-207): unlike the metrics version, the monthly interest
rate and payment count are computed without the `loan_rate > 0` and
`loan_term > 0` guards; only the formula itself is guarded. -/
def projectionMortgagePayment (price down_payment loan_rate : ℚ) (loan_term : ℤ) : ℚ :=
  let loan_amount := price - down_payment
  let monthly_interest_rate := loan_rate / 12 / 100
  let num_payments : ℤ := loan_term * 12
  if loan_amount > 0 ∧ monthly_interest_rate > 0 ∧ num_payments > 0 then
    (loan_amount * monthly_interest_rate * (1 + monthly_interest_rate) ^ num_payments.toNat) /
      ((1 + monthly_interest_rate) ^ num_payments.toNat - 1)
  else 0

/-- calculate_metrics (src/app.py lines 115-190).  The two growth arguments
are accepted, as in the source, but are not read by the body. -/
def calculate_metrics (price rental_income expenses down_payment loan_rate : ℚ)
    (loan_term : ℤ)
    (vacancy_rate appreciation_rate tax_rate closing_costs renovation_costs : ℚ)
    (annual_income_growth annual_expense_growth : ℚ) : MetricsResult :=
  let initial_investment := down_payment + closing_costs + renovation_costs
  let loan_amount := price - down_payment
  let mortgage_payment := metricsMortgagePayment price down_payment loan_rate loan_term
  let effective_rental_income := rental_income * (1 - vacancy_rate / 100)
  let monthly_cash_flow := effective_rental_income - expenses - mortgage_payment
  let annual_cash_flow := monthly_cash_flow * 12
  let roi := if initial_investment > 0 then annual_cash_flow / initial_investment * 100 else 0
  let cap_rate := if price > 0 then (effective_rental_income - expenses) * 12 / price * 100 else 0
  let cash_on_cash := if initial_investment > 0 then annual_cash_flow / initial_investment * 100 else 0
  let break_even :=
    if monthly_cash_flow > 0 then BreakEven.months (initial_investment / monthly_cash_flow)
    else BreakEven.posInf
  let depreciation_period : ℚ := 27.5
  let annual_depreciation := (price - price * 0.2) / depreciation_period
  let taxable_income :=
    effective_rental_income * 12 - expenses * 12 - annual_depreciation -
      mortgage_payment * 12 * loan_rate / 100
  let tax_savings := max 0 (taxable_income * tax_rate / 100)
  let after_tax_cash_flow := annual_cash_flow + tax_savings
  let future_value_5yr := price * (1 + appreciation_rate / 100) ^ 5
  let future_value_10yr := price * (1 + appreciation_rate / 100) ^ 10
  let future_value_20yr := price * (1 + appreciation_rate / 100) ^ 20
  let remaining_balance := loan_amount
  let total_equity_5yr :=
    if loan_term ≥ 5 then future_value_5yr - remaining_balance else future_value_5yr
  let total_equity_10yr :=
    if loan_term ≥ 10 then future_value_10yr - remaining_balance else future_value_10yr
  { monthly_cash_flow := monthly_cash_flow
    annual_cash_flow := annual_cash_flow
    roi := roi
    cap_rate := cap_rate
    cash_on_cash := cash_on_cash
    mortgage_payment := mortgage_payment
    break_even_months := break_even
    tax_savings := tax_savings
    after_tax_cash_flow := after_tax_cash_flow
    future_value_5yr := future_value_5yr
    future_value_10yr := future_value_10yr
    future_value_20yr := future_value_20yr
    total_equity_5yr := total_equity_5yr
    total_equity_10yr := total_equity_10yr
    initial_investment := initial_investment }

/-- One row of the cash-flow projection (src/app.py lines 228-236). -/
structure ProjectionRow where
  year : ℕ
  property_value : ℚ
  annual_income : ℚ
  annual_expenses : ℚ
  annual_mortgage : ℚ
  annual_cash_flow : ℚ
  cumulative_cash_flow : ℚ
  deriving DecidableEq, Repr

/-- An all-zero ProjectionRow, used only as the out-of-range default of
List.getD when stating theorems about a row at a given index. -/
def defaultRow : ProjectionRow :=
  { year := 0, property_value := 0, annual_income := 0, annual_expenses := 0,
    annual_mortgage := 0, annual_cash_flow := 0, cumulative_cash_flow := 0 }

/-- The body of one iteration of the projection loop (src/app.py lines
211-236), producing the row for a given year. -/
def projectionRow (price rental_income expenses mortgage_payment vacancy_rate
    appreciation_rate annual_income_growth annual_expense_growth : ℚ)
    (year : ℕ) : ProjectionRow :=
  let year_rental_income := rental_income * (1 + annual_income_growth / 100) ^ (year - 1)
  let year_expenses := expenses * (1 + annual_expense_growth / 100) ^ (year - 1)
  let effective_rental_income := year_rental_income * (1 - vacancy_rate / 100)
  let annual_mortgage := mortgage_payment * 12
  let annual_income := effective_rental_income * 12
  let annual_expenses := year_expenses * 12
  let annual_cash_flow := annual_income - annual_expenses - annual_mortgage
  let property_value := price * (1 + appreciation_rate / 100) ^ year
  { year := year
    property_value := property_value
    annual_income := annual_income
    annual_expenses := annual_expenses
    annual_mortgage := annual_mortgage
    annual_cash_flow := annual_cash_flow
    cumulative_cash_flow := annual_cash_flow * (year : ℚ) }

/-- calculate_cash_flow_projection (src/app.py lines 192-238): computes the
mortgage payment once, then one row per year for year = 1..years. -/
def calculate_cash_flow_projection (price rental_income expenses down_payment loan_rate : ℚ)
    (loan_term : ℤ) (vacancy_rate appreciation_rate : ℚ) (years : ℕ)
    (annual_income_growth annual_expense_growth : ℚ) : List ProjectionRow :=
  let mortgage_payment := projectionMortgagePayment price down_payment loan_rate loan_term
  (List.range years).map (fun i =>
    projectionRow price rental_income expenses mortgage_payment vacancy_rate
      appreciation_rate annual_income_growth annual_expense_growth (i + 1))

/-- A named risk factor: integer score in 1..3 plus a display description
(src/app.py lines 253-277). -/
structure RiskFactor where
  score : ℕ
  description : String
  deriving DecidableEq, Repr

/-- Result record of analyze_risk (src/app.py lines 292-297); the five
factors of the Python dict become five named fields in dict order. -/
structure RiskAssessment where
  overall_risk : String
  risk_class : String
  risk_score : ℚ
  vacancy_factor : RiskFactor
  price_to_rent_factor : RiskFactor
  expense_factor : RiskFactor
  market_factor : RiskFactor
  age_factor : RiskFactor
  deriving DecidableEq, Repr

/-- Vacancy Risk score (src/app.py line 255). -/
def vacancy_score (adjusted_vacancy : ℚ) : ℕ :=
  if adjusted_vacancy < 5 then 1 else if adjusted_vacancy < 8 then 2 else 3

/-- Price to Rent Ratio score (src/app.py line 260). -/
def price_to_rent_score (price_to_rent : ℚ) : ℕ :=
  if price_to_rent < 15 then 1 else if price_to_rent < 20 then 2 else 3

/-- Expense Ratio score (src/app.py line 265). -/
def expense_ratio_score (expense_ratio : ℚ) : ℕ :=
  if expense_ratio < 35 then 1 else if expense_ratio < 45 then 2 else 3

/-- Market Condition score (src/app.py line 270). -/
def market_condition_score (market_condition : MarketCondition) : ℕ :=
  if market_condition = .strongGrowth ∨ market_condition = .stable then 1
  else if market_condition = .volatile then 2 else 3

/-- Property Age score (src/app.py line 274). -/
def property_age_score (property_age : ℚ) : ℕ :=
  if property_age < 10 then 1 else if property_age < 30 then 2 else 3

/-- The straight-line body of analyze_risk (src/app.py lines 243-297), i.e.
everything after the two divisions by rental_income×12 have succeeded.
Number formatting inside descriptions is abstracted by Rat.toString. -/
def analyze_risk_body (price vacancy_rate expenses rental_income : ℚ)
    (market_condition : MarketCondition) (property_age : ℚ) (location : String) :
    RiskAssessment :=
  let adjusted_vacancy := vacancy_rate + (MARKET_CONDITIONS market_condition).vacancy_impact
  let price_to_rent := price / (rental_income * 12)
  let expense_ratio := (expenses * 12) / (rental_income * 12) * 100
  let vacancy_factor : RiskFactor :=
    { score := vacancy_score adjusted_vacancy
      description :=
        "Adjusted vacancy rate of " ++ toString adjusted_vacancy ++ "% indicates " ++
          (if adjusted_vacancy < 5 then "low" else if adjusted_vacancy < 8 then "moderate"
           else "high") ++ " risk." }
  let price_to_rent_factor : RiskFactor :=
    { score := price_to_rent_score price_to_rent
      description :=
        "Price to annual rent ratio of " ++ toString price_to_rent ++ " indicates " ++
          (if price_to_rent < 15 then "good" else if price_to_rent < 20 then "fair"
           else "poor") ++ " cash flow potential." }
  let expense_factor : RiskFactor :=
    { score := expense_ratio_score expense_ratio
      description :=
        "Expense ratio of " ++ toString expense_ratio ++ "% is " ++
          (if expense_ratio < 35 then "favorable" else if expense_ratio < 45 then "typical"
           else "concerning") ++ "." }
  let market_factor : RiskFactor :=
    { score := market_condition_score market_condition
      description :=
        market_condition.label ++ " market suggests " ++
          (if market_condition = .strongGrowth ∨ market_condition = .stable then "low"
           else if market_condition = .volatile then "moderate" else "high") ++ " risk." }
  let age_factor : RiskFactor :=
    { score := property_age_score property_age
      description :=
        toString property_age ++ " year old property has " ++
          (if property_age < 10 then "low" else if property_age < 30 then "moderate"
           else "high") ++ " maintenance risk." }
  let avg_score : ℚ :=
    ((vacancy_factor.score + price_to_rent_factor.score + expense_factor.score +
        market_factor.score + age_factor.score : ℕ) : ℚ) / 5
  let risk_level := if avg_score < 1.7 then "Low" else if avg_score < 2.3 then "Medium" else "High"
  let risk_class :=
    if avg_score < 1.7 then "risk-low" else if avg_score < 2.3 then "risk-medium" else "risk-high"
  { overall_risk := risk_level
    risk_class := risk_class
    risk_score := avg_score
    vacancy_factor := vacancy_factor
    price_to_rent_factor := price_to_rent_factor
    expense_factor := expense_factor
    market_factor := market_factor
    age_factor := age_factor }

/-- analyze_risk (src/app.py lines 240-297).  The Python function divides by
rental_income×12 at lines 247 and 250 with no guard, so with zero rent it
raises ZeroDivisionError; fallible code is modelled with Except.  The
location argument is accepted, as in the source, but never read. -/
def analyze_risk (price vacancy_rate expenses rental_income : ℚ)
    (market_condition : MarketCondition) (property_age : ℚ) (location : String) :
    Except String RiskAssessment :=
  if rental_income * 12 = 0 then
    Except.error "ZeroDivisionError: division by zero"
  else
    Except.ok (analyze_risk_body price vacancy_rate expenses rental_income
      market_condition property_age location)

/-- The two inlined mortgage-payment computations agree for every input:
the metrics version zeroes the rate and payment count before testing them,
the projection version tests the raw values, and both policies reject the
same inputs. -/
theorem mortgagePayment_unify (price down_payment loan_rate : ℚ) (loan_term : ℤ) :
    metricsMortgagePayment price down_payment loan_rate loan_term =
      projectionMortgagePayment price down_payment loan_rate loan_term := by
  simp only [metricsMortgagePayment, projectionMortgagePayment, gt_iff_lt]
  rcases lt_or_le 0 loan_rate with hr | hr
  · rcases lt_or_le 0 loan_term with ht | ht
    · rw [if_pos hr, if_pos ht]
    · have h1 : ¬ (0 : ℤ) < loan_term * 12 := by omega
      rw [if_pos hr, if_neg (not_lt.mpr ht)]
      simp [h1]
  · have h2 : ¬ (0 : ℚ) < loan_rate / 12 / 100 := by
      rw [not_lt, div_div]
      exact div_nonpos_iff.mpr (Or.inr ⟨hr, by norm_num⟩)
    rw [if_neg (not_lt.mpr hr)]
    simp [h2]

/-- C10: the location argument of analyze_risk is accepted but never read,
so two calls differing only in location return identical results. -/
theorem location_no_influence_C10 (price vacancy_rate expenses rental_income : ℚ)
    (market_condition : MarketCondition) (property_age : ℚ) (loc1 loc2 : String) :
    analyze_risk price vacancy_rate expenses rental_income market_condition
        property_age loc1 =
      analyze_risk price vacancy_rate expenses rental_income market_condition
        property_age loc2 := rfl

/-- C1 (amended): break_even_months is initial_investment / monthly_cash_flow
when monthly cash flow is positive, and otherwise the numeric Python float
positive infinity, not a non-numeric marker. -/
theorem break_even_policy_C1 (price rental_income expenses down_payment loan_rate : ℚ)
    (loan_term : ℤ)
    (vacancy_rate appreciation_rate tax_rate closing_costs renovation_costs aig aeg : ℚ) :
    (calculate_metrics price rental_income expenses down_payment loan_rate loan_term
          vacancy_rate appreciation_rate tax_rate closing_costs renovation_costs
          aig aeg).break_even_months =
      (if (calculate_metrics price rental_income expenses down_payment loan_rate loan_term
              vacancy_rate appreciation_rate tax_rate closing_costs renovation_costs
              aig aeg).monthly_cash_flow > 0 then
        BreakEven.months
          ((calculate_metrics price rental_income expenses down_payment loan_rate loan_term
              vacancy_rate appreciation_rate tax_rate closing_costs renovation_costs
              aig aeg).initial_investment /
            (calculate_metrics price rental_income expenses down_payment loan_rate loan_term
              vacancy_rate appreciation_rate tax_rate closing_costs renovation_costs
              aig aeg).monthly_cash_flow)
      else BreakEven.posInf) ∧
    BreakEven.isNumericInfinity BreakEven.posInf = true :=
  ⟨rfl, rfl⟩

/-- C1 counterexample: on an input whose monthly cash flow is not positive,
calculate_metrics returns the numeric float positive infinity as the
break-even value, contradicting the claim that the sentinel is not a
numeric infinity. -/
theorem break_even_numeric_inf_C1_counterexample :
    (calculate_metrics 100000 0 100 100000 0 0 0 0 0 0 0 2 3).monthly_cash_flow ≤ 0 ∧
    (calculate_metrics 100000 0 100 100000 0 0 0 0 0 0 0 2 3).break_even_months =
      BreakEven.posInf ∧
    BreakEven.isNumericInfinity
      (calculate_metrics 100000 0 100 100000 0 0 0 0 0 0 0 2 3).break_even_months = true := by
  refine ⟨by norm_num [calculate_metrics, metricsMortgagePayment], ?_, ?_⟩ <;>
    norm_num [calculate_metrics, metricsMortgagePayment, BreakEven.isNumericInfinity]

/-- C6: tax_savings is max(0, taxable_income × tax_rate/100) with
taxable_income = effective income ×12 − expenses×12 − price×0.8/27.5 −
mortgage_payment×12×loan_rate/100, hence never negative, and
after_tax_cash_flow = annual_cash_flow + tax_savings. -/
theorem tax_savings_C6 (price rental_income expenses down_payment loan_rate : ℚ)
    (loan_term : ℤ)
    (vacancy_rate appreciation_rate tax_rate closing_costs renovation_costs aig aeg : ℚ) :
    (calculate_metrics price rental_income expenses down_payment loan_rate loan_term
          vacancy_rate appreciation_rate tax_rate closing_costs renovation_costs
          aig aeg).tax_savings =
      max 0 ((rental_income * (1 - vacancy_rate / 100) * 12 - expenses * 12 -
          price * 0.8 / 27.5 -
          (calculate_metrics price rental_income expenses down_payment loan_rate loan_term
            vacancy_rate appreciation_rate tax_rate closing_costs renovation_costs
            aig aeg).mortgage_payment * 12 * loan_rate / 100) * tax_rate / 100) ∧
    0 ≤ (calculate_metrics price rental_income expenses down_payment loan_rate loan_term
          vacancy_rate appreciation_rate tax_rate closing_costs renovation_costs
          aig aeg).tax_savings ∧
    (calculate_metrics price rental_income expenses down_payment loan_rate loan_term
          vacancy_rate appreciation_rate tax_rate closing_costs renovation_costs
          aig aeg).after_tax_cash_flow =
      (calculate_metrics price rental_income expenses down_payment loan_rate loan_term
          vacancy_rate appreciation_rate tax_rate closing_costs renovation_costs
          aig aeg).annual_cash_flow +
        (calculate_metrics price rental_income expenses down_payment loan_rate loan_term
          vacancy_rate appreciation_rate tax_rate closing_costs renovation_costs
          aig aeg).tax_savings := by
  refine ⟨?_, le_max_left 0 _, rfl⟩
  have hmp : (calculate_metrics price rental_income expenses down_payment loan_rate loan_term
      vacancy_rate appreciation_rate tax_rate closing_costs renovation_costs
      aig aeg).mortgage_payment =
      metricsMortgagePayment price down_payment loan_rate loan_term := rfl
  rw [hmp]
  show max 0 _ = max 0 _
  congr 1
  ring

/-- C5: the mortgage payment returned by calculate_metrics equals the
mortgage payment computed inside calculate_cash_flow_projection, for every
combination of price, down payment, loan rate and loan term, despite the
two code paths guarding the monthly interest rate differently. -/
theorem mortgage_duplicates_agree_C5 (price rental_income expenses down_payment loan_rate : ℚ)
    (loan_term : ℤ)
    (vacancy_rate appreciation_rate tax_rate closing_costs renovation_costs aig aeg : ℚ) :
    (calculate_metrics price rental_income expenses down_payment loan_rate loan_term
          vacancy_rate appreciation_rate tax_rate closing_costs renovation_costs
          aig aeg).mortgage_payment =
      projectionMortgagePayment price down_payment loan_rate loan_term :=
  mortgagePayment_unify price down_payment loan_rate loan_term

/-- C4: calculate_metrics returns the amortizing-loan formula payment when
loan amount, monthly rate and loan term are positive, and the payment is 0
exactly when the loan amount, the monthly interest rate, or the loan term
is not positive. -/
theorem mortgage_formula_C4 (price rental_income expenses down_payment loan_rate : ℚ)
    (loan_term : ℤ)
    (vacancy_rate appreciation_rate tax_rate closing_costs renovation_costs aig aeg : ℚ) :
    ((0 < price - down_payment ∧ 0 < loan_rate / 12 / 100 ∧ 0 < loan_term) →
      (calculate_metrics price rental_income expenses down_payment loan_rate loan_term
          vacancy_rate appreciation_rate tax_rate closing_costs renovation_costs
          aig aeg).mortgage_payment =
        (price - down_payment) * (loan_rate / 12 / 100) *
            (1 + loan_rate / 12 / 100) ^ (loan_term * 12).toNat /
          ((1 + loan_rate / 12 / 100) ^ (loan_term * 12).toNat - 1)) ∧
    ((calculate_metrics price rental_income expenses down_payment loan_rate loan_term
          vacancy_rate appreciation_rate tax_rate closing_costs renovation_costs
          aig aeg).mortgage_payment = 0 ↔
      price - down_payment ≤ 0 ∨ loan_rate / 12 / 100 ≤ 0 ∨ loan_term ≤ 0) := by
  have hfield : (calculate_metrics price rental_income expenses down_payment loan_rate loan_term
      vacancy_rate appreciation_rate tax_rate closing_costs renovation_costs
      aig aeg).mortgage_payment =
      metricsMortgagePayment price down_payment loan_rate loan_term := rfl
  rw [hfield]
  have hform : (0 < price - down_payment ∧ 0 < loan_rate / 12 / 100 ∧ 0 < loan_term) →
      metricsMortgagePayment price down_payment loan_rate loan_term =
        (price - down_payment) * (loan_rate / 12 / 100) *
            (1 + loan_rate / 12 / 100) ^ (loan_term * 12).toNat /
          ((1 + loan_rate / 12 / 100) ^ (loan_term * 12).toNat - 1) := by
    rintro ⟨hL, hr, ht⟩
    have hid : loan_rate / 12 / 100 * 1200 = loan_rate := by ring
    have hrate : 0 < loan_rate := by
      have := mul_pos hr (show (0 : ℚ) < 1200 by norm_num)
      linarith
    have hnp : (0 : ℤ) < loan_term * 12 := by omega
    simp only [metricsMortgagePayment, gt_iff_lt]
    rw [if_pos hrate, if_pos ht, if_pos ⟨hL, hr, hnp⟩]
  refine ⟨hform, ?_, ?_⟩
  · intro h0
    by_contra hneg
    push_neg at hneg
    obtain ⟨h1, h2, h3⟩ := hneg
    rw [hform ⟨h1, h2, h3⟩] at h0
    have hnz : (loan_term * 12).toNat ≠ 0 := by omega
    have hpow : (1 : ℚ) < (1 + loan_rate / 12 / 100) ^ (loan_term * 12).toNat :=
      one_lt_pow₀ (by linarith) hnz
    have hnum : 0 < (price - down_payment) * (loan_rate / 12 / 100) *
        (1 + loan_rate / 12 / 100) ^ (loan_term * 12).toNat :=
      mul_pos (mul_pos h1 h2) (by linarith)
    have hden : (0 : ℚ) < (1 + loan_rate / 12 / 100) ^ (loan_term * 12).toNat - 1 := by
      linarith
    exact absurd h0 (ne_of_gt (div_pos hnum hden))
  · intro h
    simp only [metricsMortgagePayment, gt_iff_lt]
    rcases h with hL | hr | ht
    · rw [if_neg]
      rintro ⟨hc, -, -⟩
      exact absurd hc (not_lt.mpr hL)
    · have hrate : loan_rate ≤ 0 := by
        by_contra hpos
        push_neg at hpos
        have := div_pos (div_pos hpos (show (0:ℚ) < 12 by norm_num))
          (show (0:ℚ) < 100 by norm_num)
        linarith
      rw [if_neg (not_lt.mpr hrate), if_neg]
      rintro ⟨-, hc, -⟩
      exact absurd hc (lt_irrefl 0)
    · rw [if_neg (not_lt.mpr ht), if_neg]
      rintro ⟨-, -, hc⟩
      exact absurd hc (lt_irrefl 0)

/-- C4 witness: the formula branch at a loan of 1000 at 12 percent over one
year, and the zero branch at an all-cash purchase. -/
theorem mortgage_formula_C4_witness :
    (calculate_metrics 1100 0 0 100 12 1 0 0 0 0 0 2 3).mortgage_payment =
      (1100 - 100) * ((12 : ℚ) / 12 / 100) *
          (1 + (12 : ℚ) / 12 / 100) ^ (((1 : ℤ) * 12).toNat) /
        ((1 + (12 : ℚ) / 12 / 100) ^ (((1 : ℤ) * 12).toNat) - 1) ∧
    (calculate_metrics 100 0 0 100 12 1 0 0 0 0 0 2 3).mortgage_payment = 0 :=
  ⟨(mortgage_formula_C4 1100 0 0 100 12 1 0 0 0 0 0 2 3).1
      ⟨by norm_num, by norm_num, by norm_num⟩,
    (mortgage_formula_C4 100 0 0 100 12 1 0 0 0 0 0 2 3).2.mpr
      (Or.inl (by norm_num))⟩

/-- C9: ROI and cash-on-cash are the same quantity, both the annual cash
flow over initial investment as a percentage when the initial investment is
positive, both 0 when it is 0, and the cap rate is 0 when price is 0. -/
theorem roi_cash_on_cash_C9 (price rental_income expenses down_payment loan_rate : ℚ)
    (loan_term : ℤ)
    (vacancy_rate appreciation_rate tax_rate closing_costs renovation_costs aig aeg : ℚ) :
    (calculate_metrics price rental_income expenses down_payment loan_rate loan_term
          vacancy_rate appreciation_rate tax_rate closing_costs renovation_costs
          aig aeg).roi =
      (calculate_metrics price rental_income expenses down_payment loan_rate loan_term
          vacancy_rate appreciation_rate tax_rate closing_costs renovation_costs
          aig aeg).cash_on_cash ∧
    (calculate_metrics price rental_income expenses down_payment loan_rate loan_term
          vacancy_rate appreciation_rate tax_rate closing_costs renovation_costs
          aig aeg).initial_investment = down_payment + closing_costs + renovation_costs ∧
    (0 < down_payment + closing_costs + renovation_costs →
      (calculate_metrics price rental_income expenses down_payment loan_rate loan_term
          vacancy_rate appreciation_rate tax_rate closing_costs renovation_costs
          aig aeg).roi =
        (calculate_metrics price rental_income expenses down_payment loan_rate loan_term
            vacancy_rate appreciation_rate tax_rate closing_costs renovation_costs
            aig aeg).annual_cash_flow /
          (down_payment + closing_costs + renovation_costs) * 100) ∧
    (down_payment + closing_costs + renovation_costs = 0 →
      (calculate_metrics price rental_income expenses down_payment loan_rate loan_term
          vacancy_rate appreciation_rate tax_rate closing_costs renovation_costs
          aig aeg).roi = 0 ∧
      (calculate_metrics price rental_income expenses down_payment loan_rate loan_term
          vacancy_rate appreciation_rate tax_rate closing_costs renovation_costs
          aig aeg).cash_on_cash = 0) ∧
    (price = 0 →
      (calculate_metrics price rental_income expenses down_payment loan_rate loan_term
          vacancy_rate appreciation_rate tax_rate closing_costs renovation_costs
          aig aeg).cap_rate = 0) := by
  refine ⟨rfl, rfl, ?_, ?_, ?_⟩
  · intro h
    show (if 0 < down_payment + closing_costs + renovation_costs then _ else _) = _
    rw [if_pos h]
    rfl
  · intro h
    constructor <;>
      · show (if 0 < down_payment + closing_costs + renovation_costs then _ else _) = _
        rw [if_neg (by rw [h]; exact lt_irrefl 0)]
  · intro h
    show (if 0 < price then _ else _) = _
    rw [if_neg (by rw [h]; exact lt_irrefl 0)]

/-- C9 witness: an input with positive initial investment exercises the
formula case, and an all-zero purchase exercises both zero cases. -/
theorem roi_cash_on_cash_C9_witness :
    (calculate_metrics 5 0 0 10 0 0 0 0 0 0 0 2 3).roi =
      (calculate_metrics 5 0 0 10 0 0 0 0 0 0 0 2 3).annual_cash_flow / (10 + 0 + 0) * 100 ∧
    ((calculate_metrics 0 0 0 0 0 0 0 0 0 0 0 2 3).roi = 0 ∧
      (calculate_metrics 0 0 0 0 0 0 0 0 0 0 0 2 3).cash_on_cash = 0) ∧
    (calculate_metrics 0 0 0 0 0 0 0 0 0 0 0 2 3).cap_rate = 0 :=
  ⟨(roi_cash_on_cash_C9 5 0 0 10 0 0 0 0 0 0 0 2 3).2.2.1 (by norm_num),
    (roi_cash_on_cash_C9 0 0 0 0 0 0 0 0 0 0 0 2 3).2.2.2.1 (by norm_num),
    (roi_cash_on_cash_C9 0 0 0 0 0 0 0 0 0 0 0 2 3).2.2.2.2 rfl⟩

/-- C2 (amended): the divisions by rental_income×12 in analyze_risk are not
guarded: with zero rental income the function raises ZeroDivisionError and
returns no RiskAssessment; for any nonzero rental income it returns a
defined RiskAssessment. -/
theorem risk_zero_rent_C2 (price vacancy_rate expenses rental_income : ℚ)
    (market_condition : MarketCondition) (property_age : ℚ) (location : String) :
    (rental_income = 0 →
      analyze_risk price vacancy_rate expenses rental_income market_condition
          property_age location =
        Except.error "ZeroDivisionError: division by zero") ∧
    (rental_income ≠ 0 →
      analyze_risk price vacancy_rate expenses rental_income market_condition
          property_age location =
        Except.ok (analyze_risk_body price vacancy_rate expenses rental_income
          market_condition property_age location)) := by
  constructor
  · intro h
    subst h
    unfold analyze_risk
    rw [if_pos (by norm_num)]
  · intro h
    unfold analyze_risk
    rw [if_neg]
    intro hc
    rcases mul_eq_zero.mp hc with h0 | h0
    · exact h h0
    · norm_num at h0

/-- C2 witness: both branches exercised, at zero rent and at rent 2000. -/
theorem risk_zero_rent_C2_witness :
    analyze_risk 250000 5 600 0 .stable 15 "Urban" =
      Except.error "ZeroDivisionError: division by zero" ∧
    analyze_risk 250000 5 600 2000 .stable 15 "Urban" =
      Except.ok (analyze_risk_body 250000 5 600 2000 .stable 15 "Urban") :=
  ⟨(risk_zero_rent_C2 250000 5 600 0 .stable 15 "Urban").1 rfl,
    (risk_zero_rent_C2 250000 5 600 2000 .stable 15 "Urban").2 (by norm_num)⟩

/-- C2 counterexample: with rental_income = 0 (a free-and-clear zero-rent
input) analyze_risk raises ZeroDivisionError instead of returning a defined
RiskAssessment, so the divisions are not guarded. -/
theorem risk_zero_rent_C2_counterexample :
    analyze_risk 100000 5 500 0 .stable 10 "Suburban" =
      Except.error "ZeroDivisionError: division by zero" := by
  unfold analyze_risk
  rw [if_pos (by norm_num)]

/-- The row at 1-indexed position t of the projection output, read with
List.getD and the all-zero default row. -/
def projection_row_at (price rental_income expenses down_payment loan_rate : ℚ)
    (loan_term : ℤ) (vacancy_rate appreciation_rate : ℚ) (years : ℕ)
    (annual_income_growth annual_expense_growth : ℚ) (t : ℕ) : ProjectionRow :=
  (calculate_cash_flow_projection price rental_income expenses down_payment loan_rate
      loan_term vacancy_rate appreciation_rate years annual_income_growth
      annual_expense_growth).getD (t - 1) defaultRow

/-- C3: for 1 ≤ t ≤ years the t-th projection row applies growth exponent
t−1 to income and expenses, appreciation exponent t to the property value,
and sets cumulative_cash_flow to the current annual cash flow times t. -/
theorem projection_rows_C3 (price rental_income expenses down_payment loan_rate : ℚ)
    (loan_term : ℤ) (vacancy_rate appreciation_rate : ℚ) (years : ℕ)
    (aig aeg : ℚ) (t : ℕ) (h1 : 1 ≤ t) (h2 : t ≤ years) :
    (calculate_cash_flow_projection price rental_income expenses down_payment loan_rate
        loan_term vacancy_rate appreciation_rate years aig aeg).length = years ∧
    (projection_row_at price rental_income expenses down_payment loan_rate loan_term
        vacancy_rate appreciation_rate years aig aeg t).year = t ∧
    (projection_row_at price rental_income expenses down_payment loan_rate loan_term
        vacancy_rate appreciation_rate years aig aeg t).annual_income =
      rental_income * (1 + aig / 100) ^ (t - 1) * (1 - vacancy_rate / 100) * 12 ∧
    (projection_row_at price rental_income expenses down_payment loan_rate loan_term
        vacancy_rate appreciation_rate years aig aeg t).annual_expenses =
      expenses * (1 + aeg / 100) ^ (t - 1) * 12 ∧
    (projection_row_at price rental_income expenses down_payment loan_rate loan_term
        vacancy_rate appreciation_rate years aig aeg t).annual_mortgage =
      projectionMortgagePayment price down_payment loan_rate loan_term * 12 ∧
    (projection_row_at price rental_income expenses down_payment loan_rate loan_term
        vacancy_rate appreciation_rate years aig aeg t).property_value =
      price * (1 + appreciation_rate / 100) ^ t ∧
    (projection_row_at price rental_income expenses down_payment loan_rate loan_term
        vacancy_rate appreciation_rate years aig aeg t).annual_cash_flow =
      (projection_row_at price rental_income expenses down_payment loan_rate loan_term
          vacancy_rate appreciation_rate years aig aeg t).annual_income -
        (projection_row_at price rental_income expenses down_payment loan_rate loan_term
          vacancy_rate appreciation_rate years aig aeg t).annual_expenses -
        (projection_row_at price rental_income expenses down_payment loan_rate loan_term
          vacancy_rate appreciation_rate years aig aeg t).annual_mortgage ∧
    (projection_row_at price rental_income expenses down_payment loan_rate loan_term
        vacancy_rate appreciation_rate years aig aeg t).cumulative_cash_flow =
      (projection_row_at price rental_income expenses down_payment loan_rate loan_term
          vacancy_rate appreciation_rate years aig aeg t).annual_cash_flow * (t : ℚ) := by
  have hlen : (calculate_cash_flow_projection price rental_income expenses down_payment
      loan_rate loan_term vacancy_rate appreciation_rate years aig aeg).length = years := by
    simp [calculate_cash_flow_projection]
  have hlt : t - 1 < years := by omega
  have key : projection_row_at price rental_income expenses down_payment loan_rate loan_term
      vacancy_rate appreciation_rate years aig aeg t =
      projectionRow price rental_income expenses
        (projectionMortgagePayment price down_payment loan_rate loan_term) vacancy_rate
        appreciation_rate aig aeg (t - 1 + 1) := by
    unfold projection_row_at calculate_cash_flow_projection
    simp [List.getD_eq_getElem?_getD, List.getElem?_range, hlt]
  rw [Nat.sub_add_cancel h1] at key
  refine ⟨hlen, ?_, ?_, ?_, ?_, ?_, ?_, ?_⟩ <;> rw [key] <;> rfl

/-- C3 witness: a two-year projection checked at its second row. -/
theorem projection_rows_C3_witness :
    (calculate_cash_flow_projection 200 10 1 50 0 0 0 0 2 0 0).length = 2 ∧
    (projection_row_at 200 10 1 50 0 0 0 0 2 0 0 2).year = 2 ∧
    (projection_row_at 200 10 1 50 0 0 0 0 2 0 0 2).annual_income =
      10 * (1 + 0 / 100) ^ (2 - 1) * (1 - 0 / 100) * 12 ∧
    (projection_row_at 200 10 1 50 0 0 0 0 2 0 0 2).annual_expenses =
      1 * (1 + 0 / 100) ^ (2 - 1) * 12 ∧
    (projection_row_at 200 10 1 50 0 0 0 0 2 0 0 2).annual_mortgage =
      projectionMortgagePayment 200 50 0 0 * 12 ∧
    (projection_row_at 200 10 1 50 0 0 0 0 2 0 0 2).property_value =
      200 * (1 + 0 / 100) ^ 2 ∧
    (projection_row_at 200 10 1 50 0 0 0 0 2 0 0 2).annual_cash_flow =
      (projection_row_at 200 10 1 50 0 0 0 0 2 0 0 2).annual_income -
        (projection_row_at 200 10 1 50 0 0 0 0 2 0 0 2).annual_expenses -
        (projection_row_at 200 10 1 50 0 0 0 0 2 0 0 2).annual_mortgage ∧
    (projection_row_at 200 10 1 50 0 0 0 0 2 0 0 2).cumulative_cash_flow =
      (projection_row_at 200 10 1 50 0 0 0 0 2 0 0 2).annual_cash_flow * ((2 : ℕ) : ℚ) :=
  projection_rows_C3 200 10 1 50 0 0 0 0 2 0 0 2 (by norm_num) (by norm_num)

/-- Any three-tier score expression evaluates to 1, 2 or 3. -/
theorem score_cases (c1 c2 : Prop) [Decidable c1] [Decidable c2] :
    (if c1 then (1 : ℕ) else if c2 then 2 else 3) = 1 ∨
      (if c1 then (1 : ℕ) else if c2 then 2 else 3) = 2 ∨
      (if c1 then (1 : ℕ) else if c2 then 2 else 3) = 3 := by
  split_ifs <;> simp

/-- Any three-tier score expression lies between 1 and 3. -/
theorem score_bounds (c1 c2 : Prop) [Decidable c1] [Decidable c2] :
    1 ≤ (if c1 then (1 : ℕ) else if c2 then 2 else 3) ∧
      (if c1 then (1 : ℕ) else if c2 then 2 else 3) ≤ 3 := by
  split_ifs <;> simp

/-- The mean of five naturals, each between 1 and 3, lies between 1 and 3. -/
theorem mean5_bounds (s1 s2 s3 s4 s5 : ℕ)
    (h1 : 1 ≤ s1 ∧ s1 ≤ 3) (h2 : 1 ≤ s2 ∧ s2 ≤ 3) (h3 : 1 ≤ s3 ∧ s3 ≤ 3)
    (h4 : 1 ≤ s4 ∧ s4 ≤ 3) (h5 : 1 ≤ s5 ∧ s5 ≤ 3) :
    1 ≤ ((s1 + s2 + s3 + s4 + s5 : ℕ) : ℚ) / 5 ∧
      ((s1 + s2 + s3 + s4 + s5 : ℕ) : ℚ) / 5 ≤ 3 := by
  have hlo : (5 : ℕ) ≤ s1 + s2 + s3 + s4 + s5 := by omega
  have hhi : s1 + s2 + s3 + s4 + s5 ≤ 15 := by omega
  constructor
  · rw [le_div_iff₀ (by norm_num : (0 : ℚ) < 5)]
    calc (1 : ℚ) * 5 = 5 := by norm_num
      _ ≤ ((s1 + s2 + s3 + s4 + s5 : ℕ) : ℚ) := by exact_mod_cast hlo
  · rw [div_le_iff₀ (by norm_num : (0 : ℚ) < 5)]
    calc ((s1 + s2 + s3 + s4 + s5 : ℕ) : ℚ) ≤ 15 := by exact_mod_cast hhi
      _ = 3 * 5 := by norm_num

/-- C7: any RiskAssessment returned by analyze_risk has five factor scores
in 1..3, a risk_score equal to their arithmetic mean (hence in [1,3]), and
an overall_risk classified at the fixed 1.7 and 2.3 thresholds. -/
theorem risk_score_aggregate_C7 (price vacancy_rate expenses rental_income : ℚ)
    (market_condition : MarketCondition) (property_age : ℚ) (location : String)
    (r : RiskAssessment)
    (h : analyze_risk price vacancy_rate expenses rental_income market_condition
        property_age location = Except.ok r) :
    (r.vacancy_factor.score = 1 ∨ r.vacancy_factor.score = 2 ∨
      r.vacancy_factor.score = 3) ∧
    (r.price_to_rent_factor.score = 1 ∨ r.price_to_rent_factor.score = 2 ∨
      r.price_to_rent_factor.score = 3) ∧
    (r.expense_factor.score = 1 ∨ r.expense_factor.score = 2 ∨
      r.expense_factor.score = 3) ∧
    (r.market_factor.score = 1 ∨ r.market_factor.score = 2 ∨
      r.market_factor.score = 3) ∧
    (r.age_factor.score = 1 ∨ r.age_factor.score = 2 ∨ r.age_factor.score = 3) ∧
    r.risk_score = ((r.vacancy_factor.score + r.price_to_rent_factor.score +
        r.expense_factor.score + r.market_factor.score + r.age_factor.score : ℕ) : ℚ) / 5 ∧
    (1 ≤ r.risk_score ∧ r.risk_score ≤ 3) ∧
    r.overall_risk = (if r.risk_score < 1.7 then "Low"
      else if r.risk_score < 2.3 then "Medium" else "High") := by
  unfold analyze_risk at h
  split at h
  · exact absurd h (by simp)
  · injection h with h
    subst h
    have B1 : 1 ≤ vacancy_score
          (vacancy_rate + (MARKET_CONDITIONS market_condition).vacancy_impact) ∧
        vacancy_score
          (vacancy_rate + (MARKET_CONDITIONS market_condition).vacancy_impact) ≤ 3 :=
      score_bounds _ _
    have B2 : 1 ≤ price_to_rent_score (price / (rental_income * 12)) ∧
        price_to_rent_score (price / (rental_income * 12)) ≤ 3 := score_bounds _ _
    have B3 : 1 ≤ expense_ratio_score (expenses * 12 / (rental_income * 12) * 100) ∧
        expense_ratio_score (expenses * 12 / (rental_income * 12) * 100) ≤ 3 :=
      score_bounds _ _
    have B4 : 1 ≤ market_condition_score market_condition ∧
        market_condition_score market_condition ≤ 3 := score_bounds _ _
    have B5 : 1 ≤ property_age_score property_age ∧
        property_age_score property_age ≤ 3 := score_bounds _ _
    exact ⟨score_cases _ _, score_cases _ _, score_cases _ _, score_cases _ _,
      score_cases _ _, rfl, mean5_bounds _ _ _ _ _ B1 B2 B3 B4 B5, rfl⟩

/-- C7 witness: the aggregate properties at a concrete stable-market input. -/
theorem risk_score_aggregate_C7_witness :
    ((analyze_risk_body 120 0 1 1 .stable 0 "x").vacancy_factor.score = 1 ∨
      (analyze_risk_body 120 0 1 1 .stable 0 "x").vacancy_factor.score = 2 ∨
      (analyze_risk_body 120 0 1 1 .stable 0 "x").vacancy_factor.score = 3) ∧
    ((analyze_risk_body 120 0 1 1 .stable 0 "x").price_to_rent_factor.score = 1 ∨
      (analyze_risk_body 120 0 1 1 .stable 0 "x").price_to_rent_factor.score = 2 ∨
      (analyze_risk_body 120 0 1 1 .stable 0 "x").price_to_rent_factor.score = 3) ∧
    ((analyze_risk_body 120 0 1 1 .stable 0 "x").expense_factor.score = 1 ∨
      (analyze_risk_body 120 0 1 1 .stable 0 "x").expense_factor.score = 2 ∨
      (analyze_risk_body 120 0 1 1 .stable 0 "x").expense_factor.score = 3) ∧
    ((analyze_risk_body 120 0 1 1 .stable 0 "x").market_factor.score = 1 ∨
      (analyze_risk_body 120 0 1 1 .stable 0 "x").market_factor.score = 2 ∨
      (analyze_risk_body 120 0 1 1 .stable 0 "x").market_factor.score = 3) ∧
    ((analyze_risk_body 120 0 1 1 .stable 0 "x").age_factor.score = 1 ∨
      (analyze_risk_body 120 0 1 1 .stable 0 "x").age_factor.score = 2 ∨
      (analyze_risk_body 120 0 1 1 .stable 0 "x").age_factor.score = 3) ∧
    (analyze_risk_body 120 0 1 1 .stable 0 "x").risk_score =
      (((analyze_risk_body 120 0 1 1 .stable 0 "x").vacancy_factor.score +
          (analyze_risk_body 120 0 1 1 .stable 0 "x").price_to_rent_factor.score +
          (analyze_risk_body 120 0 1 1 .stable 0 "x").expense_factor.score +
          (analyze_risk_body 120 0 1 1 .stable 0 "x").market_factor.score +
          (analyze_risk_body 120 0 1 1 .stable 0 "x").age_factor.score : ℕ) : ℚ) / 5 ∧
    (1 ≤ (analyze_risk_body 120 0 1 1 .stable 0 "x").risk_score ∧
      (analyze_risk_body 120 0 1 1 .stable 0 "x").risk_score ≤ 3) ∧
    (analyze_risk_body 120 0 1 1 .stable 0 "x").overall_risk =
      (if (analyze_risk_body 120 0 1 1 .stable 0 "x").risk_score < 1.7 then "Low"
       else if (analyze_risk_body 120 0 1 1 .stable 0 "x").risk_score < 2.3 then "Medium"
       else "High") :=
  risk_score_aggregate_C7 120 0 1 1 .stable 0 "x"
    (analyze_risk_body 120 0 1 1 .stable 0 "x") (by norm_num [analyze_risk])

/-- C8: every factor uses strict less-than thresholds, so a value exactly at
a boundary falls into the higher tier: vacancy at 5 and 8 on the adjusted
vacancy, price-to-rent at 15 and 20, expense ratio at 35 and 45, and
property age at 10 and 30. -/
theorem risk_thresholds_C8 (price vacancy_rate expenses rental_income : ℚ)
    (market_condition : MarketCondition) (property_age : ℚ) (location : String)
    (r : RiskAssessment)
    (h : analyze_risk price vacancy_rate expenses rental_income market_condition
        property_age location = Except.ok r) :
    r.vacancy_factor.score =
      (if vacancy_rate + (MARKET_CONDITIONS market_condition).vacancy_impact < 5 then 1
       else if vacancy_rate + (MARKET_CONDITIONS market_condition).vacancy_impact < 8 then 2
       else 3) ∧
    r.price_to_rent_factor.score =
      (if price / (rental_income * 12) < 15 then 1
       else if price / (rental_income * 12) < 20 then 2 else 3) ∧
    r.expense_factor.score =
      (if expenses * 12 / (rental_income * 12) * 100 < 35 then 1
       else if expenses * 12 / (rental_income * 12) * 100 < 45 then 2 else 3) ∧
    r.age_factor.score =
      (if property_age < 10 then 1 else if property_age < 30 then 2 else 3) := by
  unfold analyze_risk at h
  split at h
  · exact absurd h (by simp)
  · injection h with h
    subst h
    exact ⟨rfl, rfl, rfl, rfl⟩

/-- C8 witness: the threshold equations at a concrete boundary input with
adjusted vacancy exactly 5. -/
theorem risk_thresholds_C8_witness :
    (analyze_risk_body 120 5 1 1 .stable 0 "y").vacancy_factor.score =
      (if (5 : ℚ) + (MARKET_CONDITIONS .stable).vacancy_impact < 5 then 1
       else if (5 : ℚ) + (MARKET_CONDITIONS .stable).vacancy_impact < 8 then 2
       else 3) ∧
    (analyze_risk_body 120 5 1 1 .stable 0 "y").price_to_rent_factor.score =
      (if (120 : ℚ) / (1 * 12) < 15 then 1
       else if (120 : ℚ) / (1 * 12) < 20 then 2 else 3) ∧
    (analyze_risk_body 120 5 1 1 .stable 0 "y").expense_factor.score =
      (if (1 : ℚ) * 12 / (1 * 12) * 100 < 35 then 1
       else if (1 : ℚ) * 12 / (1 * 12) * 100 < 45 then 2 else 3) ∧
    (analyze_risk_body 120 5 1 1 .stable 0 "y").age_factor.score =
      (if (0 : ℚ) < 10 then 1 else if (0 : ℚ) < 30 then 2 else 3) :=
  risk_thresholds_C8 120 5 1 1 .stable 0 "y"
    (analyze_risk_body 120 5 1 1 .stable 0 "y") (by norm_num [analyze_risk])

end ReApp
